import Mathlib

/-!
Shallow embedding of the `Tabs` web component
(`src/lib/components/Tabs/index.js`): an accessible tabbed-panel widget.

The stateful DOM code is embedded as pure functions over explicit state:
tab and panel elements are records of the attributes the component reads
and writes, attribute mutation becomes functional update of lists of
records, and a thrown JS exception becomes an explicit error value.
-/

namespace WebTabs

/-- A JS value that is either a string or a number, as produced by the
`switch` in `tabTemplate` (the `""`/`null`/`"bare"` branch assigns the
number `i` to `tabLabel`, the others assign strings). -/
inductive LabelValue
  | str : String → LabelValue
  | num : Nat → LabelValue
deriving DecidableEq, Repr

/-- How a `LabelValue` renders inside a template literal (`${tabLabel}`). -/
def LabelValue.render : LabelValue → String
  | .str s => s
  | .num n => toString n

/-- The `switch (tabLabel)` of `tabTemplate` (lines 66-80): `"question"` ↦
`"Question " + i`, `"sample"` ↦ `"Sample " + i`, `""` / `null` / `"bare"` ↦
the number `i`, anything else falls through unchanged.  `getAttribute`
returns string-or-null, embedded as `Option String`. -/
def resolveLabel : Option String → Nat → LabelValue
  | none, i => .num i
  | some s, i =>
    if s = "question" then .str ("Question " ++ toString i)
    else if s = "sample" then .str ("Sample " ++ toString i)
    else if s = "" ∨ s = "bare" then .num i
    else .str s

/-- `id="web-tab-${this.idSalt}-${i}"` of a tab button (line 89). -/
def tabDomId (salt : String) (i : Nat) : String :=
  "web-tab-" ++ salt ++ "-" ++ toString i

/-- `id="web-tab-${this.idSalt}-${i}-panel"` of a panel (line 103). -/
def panelDomId (salt : String) (i : Nat) : String :=
  tabDomId salt i ++ "-panel"

/-- The attributes of one rendered tab `<button>` that the component ever
reads or writes (`tabindex = none` models the attribute being absent). -/
structure TabElem where
  id : String
  ariaControls : String
  ariaSelected : String
  tabindex : Option String
  dataLabel : String
  textLabel : LabelValue
deriving DecidableEq, Repr

/-- The attributes of one rendered panel `<div>` that the component ever
reads or writes. -/
structure PanelElem where
  id : String
  ariaLabelledby : String
  hidden : Bool
deriving DecidableEq, Repr

/-- `tabTemplate(i, tabLabel)` (lines 65-98): resolves the label and builds
a tab button with `aria-selected="false"`, `tabindex="-1"`, cross-reference
`aria-controls` to the paired panel id, and the
`data-label="tab, ${tabLabel}"` payload. -/
def tabTemplate (salt : String) (i : Nat) (tabLabel : Option String) : TabElem :=
  let lbl := resolveLabel tabLabel i
  { id := tabDomId salt i
    ariaControls := panelDomId salt i
    ariaSelected := "false"
    tabindex := some "-1"
    dataLabel := "tab, " ++ lbl.render
    textLabel := lbl }

/-- `panelTemplate(i, child)` (lines 100-112): a panel div labelled by the
paired tab id, initially `hidden`. -/
def panelTemplate (salt : String) (i : Nat) : PanelElem :=
  { id := panelDomId salt i
    ariaLabelledby := tabDomId salt i
    hidden := true }

/-- JS indexed access `list[i]` on a NodeList: `undefined` (here `none`)
for a negative or out-of-range index. -/
def jsIndex {α : Type} (l : List α) (i : Int) : Option α :=
  if 0 ≤ i then l.get? i.toNat else none

/-- The body of the `for (const tab of tabs)` loop in `_changeTab`
(lines 157-160): unselect and remove from tab order. -/
def markInactive (t : TabElem) : TabElem :=
  { t with ariaSelected := "false", tabindex := some "-1" }

/-- Lines 162-163 of `_changeTab`: select the active tab and remove its
`tabindex` attribute. -/
def markActive (t : TabElem) : TabElem :=
  { t with ariaSelected := "true", tabindex := none }

/-- `_changeTab` (lines 148-170), acting on the live lists of tab and panel
elements.  The active tab is looked up before the panel guard; a missing
panel makes the whole call a no-op; a missing tab with a present panel
would be a JS `TypeError` (`undefined.setAttribute`), embedded as `none`.
Otherwise every tab is marked inactive, the active one re-marked active,
every panel hidden, and the active panel unhidden. -/
def changeTab (tabs : List TabElem) (panels : List PanelElem) (activeTab : Int) :
    Option (List TabElem × List PanelElem) :=
  let activeTabElem := jsIndex tabs activeTab
  match jsIndex panels activeTab with
  | none => some (tabs, panels)
  | some activePanel =>
    match activeTabElem with
    | none => none
    | some t =>
      let tabs1 := (tabs.map markInactive).set activeTab.toNat (markActive t)
      let panels1 := (panels.map fun p => { p with hidden := true }).set
        activeTab.toNat { activePanel with hidden := false }
      some (tabs1, panels1)

end WebTabs

namespace WebTabs

theorem jsIndex_nat_of_lt {α : Type} (l : List α) (i : Nat) (h : i < l.length) :
    jsIndex l (i : Int) = some (l.get ⟨i, h⟩) := by
  simp [jsIndex, List.get?_eq_get h]

/-- C1: for every widget state and every `activeTab` valid for both the tab
and the panel lists, `_changeTab` succeeds and afterwards exactly one panel
is unhidden and exactly one tab has `aria-selected="true"` (every other tab
carries `tabindex="-1"` while the active tab has no `tabindex` attribute),
and the unhidden panel and selected tab both sit at index `activeTab`. -/
theorem changeTab_sync (tabs : List TabElem) (panels : List PanelElem) (i : Nat)
    (ht : i < tabs.length) (hp : i < panels.length) :
    ∃ tabs1 panels1,
      changeTab tabs panels (i : Int) = some (tabs1, panels1) ∧
      tabs1.length = tabs.length ∧ panels1.length = panels.length ∧
      (∀ j, (hj : j < tabs1.length) →
        (((tabs1.get ⟨j, hj⟩).ariaSelected = "true") ↔ j = i) ∧
        (((tabs1.get ⟨j, hj⟩).tabindex = none) ↔ j = i) ∧
        (j ≠ i → (tabs1.get ⟨j, hj⟩).tabindex = some "-1")) ∧
      (∀ j, (hj : j < panels1.length) →
        (((panels1.get ⟨j, hj⟩).hidden = false) ↔ j = i)) := by
  have hjt := jsIndex_nat_of_lt tabs i ht
  have hjp := jsIndex_nat_of_lt panels i hp
  refine ⟨(tabs.map markInactive).set i (markActive (tabs.get ⟨i, ht⟩)),
    (panels.map fun p => { p with hidden := true }).set i
      { panels.get ⟨i, hp⟩ with hidden := false }, ?_, by simp, by simp, ?_, ?_⟩
  · simp [changeTab, hjt, hjp]
  · intro j hj
    have hj' : j < tabs.length := by simpa using hj
    rcases eq_or_ne j i with rfl | hne
    · simp [List.get_eq_getElem, List.getElem_set, markActive]
    · have : i ≠ j := fun h => hne h.symm
      simp [List.get_eq_getElem, List.getElem_set, this, markInactive]
      exact hne
  · intro j hj
    have hj' : j < panels.length := by simpa using hj
    rcases eq_or_ne j i with rfl | hne
    · simp [List.get_eq_getElem, List.getElem_set]
    · have : i ≠ j := fun h => hne h.symm
      simp [List.get_eq_getElem, List.getElem_set, this]
      exact hne

/-- Witness for C1: a concrete two-tab widget with `activeTab = 1`. -/
theorem changeTab_sync_witness :
    ∃ tabs1 panels1,
      changeTab [tabTemplate "a" 1 none, tabTemplate "a" 2 none]
        [panelTemplate "a" 1, panelTemplate "a" 2] (1 : Nat) = some (tabs1, panels1) ∧
      tabs1.length = 2 ∧ panels1.length = 2 ∧
      (∀ j, (hj : j < tabs1.length) →
        (((tabs1.get ⟨j, hj⟩).ariaSelected = "true") ↔ j = 1) ∧
        (((tabs1.get ⟨j, hj⟩).tabindex = none) ↔ j = 1) ∧
        (j ≠ 1 → (tabs1.get ⟨j, hj⟩).tabindex = some "-1")) ∧
      (∀ j, (hj : j < panels1.length) →
        (((panels1.get ⟨j, hj⟩).hidden = false) ↔ j = 1)) :=
  changeTab_sync [tabTemplate "a" 1 none, tabTemplate "a" 2 none]
    [panelTemplate "a" 1, panelTemplate "a" 2] 1 (by decide) (by decide)

/-- C8: when no panel exists at `activeTab`, `_changeTab` is a no-op: it
returns without error and without mutating any tab or panel attribute, even
though the active tab element is looked up before the panel-existence
guard. -/
theorem changeTab_noop_of_no_panel (tabs : List TabElem) (panels : List PanelElem)
    (i : Int) (h : jsIndex panels i = none) :
    changeTab tabs panels i = some (tabs, panels) := by
  simp [changeTab, h]

/-- Witness for C8: two tabs but no panels, `activeTab = 0`. -/
theorem changeTab_noop_of_no_panel_witness :
    changeTab [tabTemplate "a" 1 none, tabTemplate "a" 2 none] [] 0 =
      some ([tabTemplate "a" 1 none, tabTemplate "a" 2 none], []) :=
  changeTab_noop_of_no_panel _ _ 0 (by simp [jsIndex])

/-- C3: label resolution is a pure total function of the declared label and
the 1-based index: `"question"` ↦ `"Question " + i`, `"sample"` ↦
`"Sample " + i`, `""` / `null` / `"bare"` ↦ the bare number `i`, and any
other non-empty string is used verbatim, for any index. -/
theorem resolveLabel_policy (i : Nat) (s : String) :
    resolveLabel (some "question") i = .str ("Question " ++ toString i) ∧
    resolveLabel (some "sample") i = .str ("Sample " ++ toString i) ∧
    resolveLabel (some "") i = .num i ∧
    resolveLabel none i = .num i ∧
    resolveLabel (some "bare") i = .num i ∧
    (s ≠ "question" → s ≠ "sample" → s ≠ "" → s ≠ "bare" →
      resolveLabel (some s) i = .str s) := by
  refine ⟨rfl, rfl, rfl, rfl, rfl, ?_⟩
  intro h1 h2 h3 h4
  simp [resolveLabel, h1, h2, h3, h4]

/-- Witness for C3 at concrete inputs. -/
theorem resolveLabel_policy_witness :
    resolveLabel (some "Overview") 7 = .str "Overview" :=
  (resolveLabel_policy 7 "Overview").2.2.2.2.2
    (by decide) (by decide) (by decide) (by decide)

end WebTabs

namespace WebTabs

/-- The DOM elements the component queries live
(`querySelectorAll(".web-tabs__tab")` / `".web-tabs__panel"`). -/
structure WidgetDom where
  tabs : List TabElem
  panels : List PanelElem
deriving DecidableEq, Repr

/-- The component state touched by the navigation API: the `activeTab`
property together with the live DOM. -/
structure WState where
  activeTab : Int
  dom : WidgetDom
deriving DecidableEq, Repr

/-- A JS exception escaping one of the embedded methods. -/
inductive JsError
  | rangeError (msg : String)
  | typeError
deriving DecidableEq, Repr

/-- The message of the `RangeError` thrown by `focusTab` (line 177). -/
def noTabMessage : String := "There is no tab at the specified index."

/-- `focusTab(index)` (lines 173-181): queries the live tab list; if no tab
exists at `index` it throws a `RangeError` (the state at the throw is
unchanged, the assignment never runs), otherwise it assigns
`this.activeTab = index`. -/
def focusTab (s : WState) (index : Int) : WState × Option JsError :=
  match jsIndex s.dom.tabs index with
  | none => (s, some (.rangeError noTabMessage))
  | some _ => ({ s with activeTab := index }, none)

/-- `previousTab()` (lines 185-187). -/
def previousTab (s : WState) : WState × Option JsError :=
  focusTab s (s.activeTab - 1)

/-- `nextTab()` (lines 191-193). -/
def nextTab (s : WState) : WState × Option JsError :=
  focusTab s (s.activeTab + 1)

/-- `updated(changedProperties)` (lines 141-145): the host framework calls
this after a property assignment; when `changedProperties` contains
`activeTab` it runs `_changeTab`. -/
def updated (s : WState) (changedHasActiveTab : Bool) : Option WState :=
  if changedHasActiveTab then
    match changeTab s.dom.tabs s.dom.panels s.activeTab with
    | none => none
    | some (ts, ps) => some { s with dom := ⟨ts, ps⟩ }
  else some s

/-- C2: `focusTab(i)` with no tab at `i` throws the `RangeError` and leaves
the whole widget state (in particular `activeTab`) unchanged; with a tab at
`i` it succeeds, sets `activeTab := i`, and the update pass the assignment
triggers runs `_changeTab` (Presentation Sync) on the new state. -/
theorem focusTab_spec (s : WState) (i : Int) :
    (jsIndex s.dom.tabs i = none →
      focusTab s i = (s, some (.rangeError noTabMessage))) ∧
    (jsIndex s.dom.tabs i ≠ none →
      focusTab s i = ({ s with activeTab := i }, none) ∧
      updated { s with activeTab := i } true =
        (match changeTab s.dom.tabs s.dom.panels i with
         | none => none
         | some (ts, ps) => some { activeTab := i, dom := ⟨ts, ps⟩ })) := by
  constructor
  · intro h
    simp [focusTab, h]
  · intro h
    match hidx : jsIndex s.dom.tabs i with
    | none => exact absurd hidx h
    | some t => exact ⟨by simp [focusTab, hidx], by simp [updated]⟩

/-- Witness for C2: a one-tab widget, out-of-range call at index 5. -/
theorem focusTab_spec_witness :
    focusTab ⟨0, ⟨[tabTemplate "a" 1 none], [panelTemplate "a" 1]⟩⟩ 5 =
      (⟨0, ⟨[tabTemplate "a" 1 none], [panelTemplate "a" 1]⟩⟩,
        some (.rangeError noTabMessage)) :=
  (focusTab_spec ⟨0, ⟨[tabTemplate "a" 1 none], [panelTemplate "a" 1]⟩⟩ 5).1
    (by simp [jsIndex])

/-- C4: `previousTab()` is exactly `focusTab(activeTab - 1)` and `nextTab()`
is exactly `focusTab(activeTab + 1)` — no clamping, no wraparound — so at
the boundaries (`activeTab = 0` for previous, `activeTab = count - 1` for
next) the propagated `RangeError` is thrown and the state is unchanged. -/
theorem previousTab_nextTab_spec (s : WState) :
    previousTab s = focusTab s (s.activeTab - 1) ∧
    nextTab s = focusTab s (s.activeTab + 1) ∧
    (s.activeTab = 0 →
      previousTab s = (s, some (.rangeError noTabMessage))) ∧
    (s.activeTab = (s.dom.tabs.length : Int) - 1 →
      nextTab s = (s, some (.rangeError noTabMessage))) := by
  refine ⟨rfl, rfl, ?_, ?_⟩
  · intro h0
    have : jsIndex s.dom.tabs (s.activeTab - 1) = none := by
      rw [h0]; simp [jsIndex]
    simp [previousTab, focusTab, this]
  · intro hlast
    have : jsIndex s.dom.tabs (s.activeTab + 1) = none := by
      rw [hlast]
      have : ((s.dom.tabs.length : Int) - 1 + 1).toNat = s.dom.tabs.length := by omega
      simp [jsIndex, this, List.get?_eq_none.2 (le_refl _)]
    simp [nextTab, focusTab, this]

/-- Witness for C4: a one-tab widget at `activeTab = 0` (which is also
`count - 1`), where both boundary calls raise. -/
theorem previousTab_nextTab_spec_witness :
    previousTab ⟨0, ⟨[tabTemplate "a" 1 none], [panelTemplate "a" 1]⟩⟩ =
      (⟨0, ⟨[tabTemplate "a" 1 none], [panelTemplate "a" 1]⟩⟩,
        some (.rangeError noTabMessage)) ∧
    nextTab ⟨0, ⟨[tabTemplate "a" 1 none], [panelTemplate "a" 1]⟩⟩ =
      (⟨0, ⟨[tabTemplate "a" 1 none], [panelTemplate "a" 1]⟩⟩,
        some (.rangeError noTabMessage)) :=
  ⟨(previousTab_nextTab_spec _).2.2.1 rfl,
   (previousTab_nextTab_spec _).2.2.2 (by decide)⟩

end WebTabs

namespace WebTabs

/-- The `for (const child of this.children)` loop of `render` (lines
44-54), carrying the 1-based counter `i`: for each child it pushes
`panelTemplate(i, child)` and `tabTemplate(i, child.getAttribute("data-label"))`.
Each child is represented by its `data-label` attribute. -/
def deriveFrom (salt : String) : Nat → List (Option String) →
    List TabElem × List PanelElem
  | _, [] => ([], [])
  | i, c :: cs =>
    let rest := deriveFrom salt (i + 1) cs
    (tabTemplate salt i c :: rest.1, panelTemplate salt i :: rest.2)

/-- The full component instance: lit properties (`label`, `activeTab`,
`overflow`), the cached derivation results (`null` before first render),
the per-instance id salt, and the initial children (as `data-label`
attributes). -/
structure Tabs where
  label : String
  activeTab : Int
  overflow : Bool
  prerenderedChildren : Option (List PanelElem)
  tabs : Option (List TabElem)
  idSalt : String
  children : List (Option String)
deriving DecidableEq, Repr

/-- The template value `render` returns (lines 57-62): the tablist with its
`aria-label`, followed by the prerendered panels. -/
structure RenderOutput where
  ariaLabel : String
  tablist : List TabElem
  panels : List PanelElem
deriving DecidableEq, Repr

/-- `render()` (lines 40-63): on the first call (cache fields still `null`)
it derives the tab and panel sequences from the children and caches them;
on every later call the `if (!this.prerenderedChildren)` guard skips the
derivation.  Returns the updated instance and the produced template. -/
def render (t : Tabs) : Tabs × RenderOutput :=
  let t1 := match t.prerenderedChildren with
    | some _ => t
    | none =>
      let derived := deriveFrom t.idSalt 1 t.children
      { t with prerenderedChildren := some derived.2, tabs := some derived.1 }
  (t1, { ariaLabel := t1.label
         tablist := t1.tabs.getD []
         panels := t1.prerenderedChildren.getD [] })

theorem deriveFrom_length (salt : String) (i : Nat) (cs : List (Option String)) :
    (deriveFrom salt i cs).1.length = cs.length ∧
    (deriveFrom salt i cs).2.length = cs.length := by
  induction cs generalizing i with
  | nil => simp [deriveFrom]
  | cons c cs ih => simp [deriveFrom, ih (i + 1)]

/-- C5: the derivation pass is idempotent per instance: a second `render`
changes nothing (same cached sequences, same output — `n` tabs, not `2n`),
and the derivation never mutates `activeTab` or `overflow`. -/
theorem render_idempotent (t : Tabs) :
    render (render t).1 = render t ∧
    (render t).1.activeTab = t.activeTab ∧
    (render t).1.overflow = t.overflow ∧
    (t.prerenderedChildren = none →
      (render t).1.tabs = some (deriveFrom t.idSalt 1 t.children).1 ∧
      (render t).1.prerenderedChildren = some (deriveFrom t.idSalt 1 t.children).2 ∧
      ((render t).1.tabs.getD []).length = t.children.length ∧
      ((render t).1.prerenderedChildren.getD []).length = t.children.length) := by
  match h : t.prerenderedChildren with
  | some ps =>
    refine ⟨?_, ?_, ?_, ?_⟩
    · simp [render, h]
    · simp [render, h]
    · simp [render, h]
    · intro hnone; exact absurd hnone (by simp)
  | none =>
    refine ⟨?_, ?_, ?_, ?_⟩
    · simp [render, h]
    · simp [render, h]
    · simp [render, h]
    · intro _
      refine ⟨by simp [render, h], by simp [render, h], ?_, ?_⟩
      · simp [render, h, (deriveFrom_length t.idSalt 1 t.children).1]
      · simp [render, h, (deriveFrom_length t.idSalt 1 t.children).2]

/-- Witness for C5: a fresh two-child instance; the cache is filled with
exactly two tabs and two panels. -/
theorem render_idempotent_witness :
    render (render ⟨"lbl", 0, false, none, none, "s", [some "question", none]⟩).1 =
      render ⟨"lbl", 0, false, none, none, "s", [some "question", none]⟩ ∧
    (render ⟨"lbl", 0, false, none, none, "s", [some "question", none]⟩).1.tabs =
      some (deriveFrom "s" 1 [some "question", none]).1 ∧
    ((render ⟨"lbl", 0, false, none, none, "s", [some "question", none]⟩).1.tabs.getD
      []).length = 2 :=
  have h := render_idempotent ⟨"lbl", 0, false, none, none, "s", [some "question", none]⟩
  ⟨h.1, (h.2.2.2 rfl).1, (h.2.2.2 rfl).2.2.1⟩

end WebTabs

namespace WebTabs

/-- The keyboard-interaction state: the number of tab controls in the
tablist (siblings of each other), which of them is `document.activeElement`,
and the `activeTab` property (which the keyboard handlers never touch). -/
structure KbState where
  numTabs : Nat
  focused : Nat
  activeTab : Int
deriving DecidableEq, Repr

/-- `focusFirstItem()` (lines 267-270): focus the parent's first element
child. -/
def focusFirstItem (s : KbState) : KbState :=
  { s with focused := 0 }

/-- `focusLastItem()` (lines 273-276): focus the parent's last element
child. -/
def focusLastItem (s : KbState) : KbState :=
  { s with focused := s.numTabs - 1 }

/-- `focusNextItem()` (lines 246-253): focus the next sibling if it exists,
else the first. -/
def focusNextItem (s : KbState) : KbState :=
  if s.focused + 1 < s.numTabs then { s with focused := s.focused + 1 }
  else focusFirstItem s

/-- `focusPreviousItem()` (lines 257-264): focus the previous sibling if it
exists, else the last. -/
def focusPreviousItem (s : KbState) : KbState :=
  if 0 < s.focused then { s with focused := s.focused - 1 }
  else focusLastItem s

def KEYCODE_END : Nat := 35
def KEYCODE_HOME : Nat := 36
def KEYCODE_LEFT : Nat := 37
def KEYCODE_RIGHT : Nat := 39

/-- `onKeydown(e)` (lines 216-242): the `switch (e.keyCode)` over the four
navigation keys.  The returned `Bool` records whether `e.preventDefault()`
was called; any other key falls off the switch with no effect. -/
def onKeydown (s : KbState) (keyCode : Nat) : KbState × Bool :=
  if keyCode = KEYCODE_RIGHT then (focusNextItem s, true)
  else if keyCode = KEYCODE_LEFT then (focusPreviousItem s, true)
  else if keyCode = KEYCODE_HOME then (focusFirstItem s, true)
  else if keyCode = KEYCODE_END then (focusLastItem s, true)
  else (s, false)

/-- C7: the roving-focus protocol: Right moves focus to the next tab,
wrapping from the last to the first; Left to the previous, wrapping from
the first to the last; Home to the first; End to the last; all four
suppress the default action; and no key ever changes `activeTab` (or the
tab population). -/
theorem onKeydown_roving_focus (s : KbState) (h : s.focused < s.numTabs) :
    onKeydown s KEYCODE_RIGHT =
      ({ s with focused := if s.focused = s.numTabs - 1 then 0 else s.focused + 1 },
        true) ∧
    onKeydown s KEYCODE_LEFT =
      ({ s with focused := if s.focused = 0 then s.numTabs - 1 else s.focused - 1 },
        true) ∧
    onKeydown s KEYCODE_HOME = ({ s with focused := 0 }, true) ∧
    onKeydown s KEYCODE_END = ({ s with focused := s.numTabs - 1 }, true) ∧
    (∀ k : Nat, (onKeydown s k).1.activeTab = s.activeTab ∧
      (onKeydown s k).1.numTabs = s.numTabs) := by
  refine ⟨?_, ?_, by simp [onKeydown, KEYCODE_HOME, KEYCODE_RIGHT, KEYCODE_LEFT,
    focusFirstItem], by simp [onKeydown, KEYCODE_END, KEYCODE_RIGHT, KEYCODE_LEFT,
    KEYCODE_HOME, focusLastItem], ?_⟩
  · rcases eq_or_ne s.focused (s.numTabs - 1) with he | hne
    · have : ¬ s.focused + 1 < s.numTabs := by omega
      simp [onKeydown, KEYCODE_RIGHT, focusNextItem, focusFirstItem, this, he]
      omega
    · have : s.focused + 1 < s.numTabs := by omega
      simp [onKeydown, KEYCODE_RIGHT, focusNextItem, this, hne]
  · rcases eq_or_ne s.focused 0 with he | hne
    · have : ¬ 0 < s.focused := by omega
      simp [onKeydown, KEYCODE_LEFT, KEYCODE_RIGHT, focusPreviousItem,
        focusLastItem, this, he]
    · have : 0 < s.focused := by omega
      simp [onKeydown, KEYCODE_LEFT, KEYCODE_RIGHT, focusPreviousItem, this, hne]
  · intro k
    unfold onKeydown focusNextItem focusPreviousItem focusFirstItem focusLastItem
    repeat' split
    all_goals exact ⟨rfl, rfl⟩

/-- Witness for C7: three tabs, focus on the last, `activeTab = 0`. -/
theorem onKeydown_roving_focus_witness :
    onKeydown ⟨3, 2, 0⟩ KEYCODE_RIGHT = (⟨3, 0, 0⟩, true) ∧
    onKeydown ⟨3, 2, 0⟩ KEYCODE_LEFT = (⟨3, 1, 0⟩, true) ∧
    onKeydown ⟨3, 2, 0⟩ KEYCODE_HOME = (⟨3, 0, 0⟩, true) ∧
    onKeydown ⟨3, 2, 0⟩ KEYCODE_END = (⟨3, 2, 0⟩, true) :=
  have h := onKeydown_roving_focus ⟨3, 2, 0⟩ (by decide)
  ⟨h.1, h.2.1, h.2.2.1, h.2.2.2.1⟩

/-- C10: any keydown whose code is not Right, Left, Home or End does
nothing: no focus movement, no state change, and no `preventDefault`. -/
theorem onKeydown_other_key_noop (s : KbState) (k : Nat)
    (h39 : k ≠ KEYCODE_RIGHT) (h37 : k ≠ KEYCODE_LEFT)
    (h36 : k ≠ KEYCODE_HOME) (h35 : k ≠ KEYCODE_END) :
    onKeydown s k = (s, false) := by
  simp [onKeydown, h39, h37, h36, h35]

/-- Witness for C10: the Enter key (code 13). -/
theorem onKeydown_other_key_noop_witness :
    onKeydown ⟨3, 1, 2⟩ 13 = (⟨3, 1, 2⟩, false) :=
  onKeydown_other_key_noop ⟨3, 1, 2⟩ 13 (by decide) (by decide) (by decide)
    (by decide)

end WebTabs

namespace WebTabs

/-- The external registrations an instance holds: whether its bound
`onResize` is registered on `window`, and how many `"request-nav-to-next"`
subscriptions it placed on nested `web-question` descendants. -/
structure Registrations where
  windowResize : Bool
  questionNavListeners : Nat
deriving DecidableEq, Repr

/-- `connectedCallback()` (lines 131-134): registers the `resize`
listener. -/
def connectedCallback (r : Registrations) : Registrations :=
  { r with windowResize := true }

/-- `disconnectedCallback()` (lines 136-139): removes the `resize` listener
— and nothing else. -/
def disconnectedCallback (r : Registrations) : Registrations :=
  { r with windowResize := false }

/-- The subscription effect of `firstUpdated()` (lines 121-128): one
`addEventListener("request-nav-to-next", this.nextTab)` per `web-question`
descendant found at first render. -/
def firstUpdatedSubscriptions (numQuestions : Nat) (r : Registrations) :
    Registrations :=
  { r with questionNavListeners := r.questionNavListeners + numQuestions }

/-- Counterexample for C9: an instance with one nested question, taken
through attach, first render, and detach: the resize listener is gone, but
the `"request-nav-to-next"` subscription is still registered, so a listener
of the destroyed instance remains. -/
theorem lifecycle_release_counterexample :
    (disconnectedCallback
      (firstUpdatedSubscriptions 1 (connectedCallback ⟨false, 0⟩))) =
      ⟨false, 1⟩ ∧
    (disconnectedCallback
      (firstUpdatedSubscriptions 1 (connectedCallback ⟨false, 0⟩))).questionNavListeners
      ≠ 0 := by
  exact ⟨rfl, by decide⟩

/-- C9 amended: detach releases exactly the window `resize` listener;
the `"request-nav-to-next"` subscriptions placed at first render are never
released by the component (they are left registered after detach). -/
theorem lifecycle_release_amended (r : Registrations) (numQuestions : Nat) :
    (connectedCallback r).windowResize = true ∧
    (disconnectedCallback r).windowResize = false ∧
    (disconnectedCallback r).questionNavListeners = r.questionNavListeners ∧
    (firstUpdatedSubscriptions numQuestions r).questionNavListeners =
      r.questionNavListeners + numQuestions ∧
    (firstUpdatedSubscriptions numQuestions r).windowResize = r.windowResize :=
  ⟨rfl, rfl, rfl, rfl, rfl⟩

end WebTabs

namespace WebTabs

/-- All ids a single instance produces: its tab ids and its panel ids. -/
def instanceIds (salt : String) (children : List (Option String)) : List String :=
  (deriveFrom salt 1 children).1.map TabElem.id ++
    (deriveFrom salt 1 children).2.map PanelElem.id

theorem string_eq_of_data {a b : String} (h : a.data = b.data) : a = b := by
  cases a; cases b; exact congrArg String.mk h

theorem digitChar_isDigit (n : Nat) (h : n < 10) : (Nat.digitChar n).isDigit := by
  interval_cases n <;> decide

theorem toDigitsCore_isDigit (f : Nat) :
    ∀ (n : Nat) (acc : List Char), (∀ c ∈ acc, c.isDigit) →
      ∀ c ∈ Nat.toDigitsCore 10 f n acc, c.isDigit := by
  induction f with
  | zero =>
    intro n acc hacc c hc
    simp only [Nat.toDigitsCore] at hc
    exact hacc c hc
  | succ f ih =>
    intro n acc hacc c hc
    simp only [Nat.toDigitsCore] at hc
    have hd : (Nat.digitChar (n % 10)).isDigit :=
      digitChar_isDigit _ (Nat.mod_lt n (by norm_num))
    have hacc' : ∀ c ∈ Nat.digitChar (n % 10) :: acc, c.isDigit := by
      intro c' hc'
      rcases List.mem_cons.1 hc' with rfl | hc'
      · exact hd
      · exact hacc c' hc'
    by_cases h0 : n / 10 = 0
    · rw [if_pos h0] at hc
      exact hacc' c hc
    · rw [if_neg h0] at hc
      exact ih (n / 10) (Nat.digitChar (n % 10) :: acc) hacc' c hc

/-- Every character of the decimal rendering of a natural number (the
`${i}` interpolations in the id templates) is a digit. -/
theorem repr_isDigit (n : Nat) : ∀ c ∈ (Nat.repr n).data, c.isDigit := by
  have h : (Nat.repr n).data = Nat.toDigitsCore 10 (n + 1) n [] := rfl
  rw [h]
  exact toDigitsCore_isDigit (n + 1) n [] (by simp)

theorem isDigit_ne_dash {c : Char} (h : c.isDigit) : c ≠ '-' := by
  intro he
  subst he
  exact absurd h (by decide)

/-- Unique decomposition at a separator: if the parts after the separator
are separator-free, the decomposition is unambiguous. -/
theorem append_dash_inj :
    ∀ (a c b d : List Char), ('-' ∉ b) → ('-' ∉ d) →
      a ++ '-' :: b = c ++ '-' :: d → a = c ∧ b = d := by
  intro a
  induction a with
  | nil =>
    intro c b d hb hd h
    cases c with
    | nil => exact ⟨rfl, by simpa using h⟩
    | cons y c2 =>
      simp only [List.nil_append, List.cons_append, List.cons.injEq] at h
      exact absurd (h.2 ▸ List.mem_append.2 (Or.inr (List.mem_cons_self _ _))) hb
  | cons x a2 ih =>
    intro c b d hb hd h
    cases c with
    | nil =>
      simp only [List.cons_append, List.nil_append, List.cons.injEq] at h
      exact absurd (h.2 ▸ List.mem_append.2 (Or.inr (List.mem_cons_self _ _))) hd
    | cons y c2 =>
      simp only [List.cons_append, List.cons.injEq] at h
      obtain ⟨rfl, h2⟩ := h
      obtain ⟨h3, h4⟩ := ih c2 b d hb hd h2
      exact ⟨by rw [h3], h4⟩

theorem toString_nat_eq_repr (i : Nat) : toString i = Nat.repr i := rfl

theorem tabDomId_data (salt : String) (i : Nat) :
    (tabDomId salt i).data =
      "web-tab-".data ++ (salt.data ++ '-' :: (Nat.repr i).data) := by
  simp [tabDomId, toString_nat_eq_repr, String.data_append, List.append_assoc]

theorem panelDomId_data (salt : String) (i : Nat) :
    (panelDomId salt i).data =
      "web-tab-".data ++
        ((salt.data ++ '-' :: (Nat.repr i).data) ++ '-' :: "panel".data) := by
  simp [panelDomId, tabDomId, toString_nat_eq_repr, String.data_append,
    List.append_assoc]

theorem repr_dash_free (i : Nat) : ('-' : Char) ∉ (Nat.repr i).data := fun hc =>
  isDigit_ne_dash (repr_isDigit i '-' hc) rfl

theorem tabDomId_ne_of_salt_ne {s1 s2 : String} (h : s1 ≠ s2) (i j : Nat) :
    tabDomId s1 i ≠ tabDomId s2 j := by
  intro he
  have hd := congrArg String.data he
  rw [tabDomId_data, tabDomId_data] at hd
  have h2 := List.append_cancel_left hd
  have h3 := append_dash_inj s1.data s2.data (Nat.repr i).data (Nat.repr j).data
    (repr_dash_free i) (repr_dash_free j) h2
  exact h (string_eq_of_data h3.1)

theorem tabDomId_ne_panelDomId (s1 s2 : String) (i j : Nat) :
    tabDomId s1 i ≠ panelDomId s2 j := by
  intro he
  have hd := congrArg String.data he
  rw [tabDomId_data, panelDomId_data] at hd
  have h2 := List.append_cancel_left hd
  have h3 := append_dash_inj s1.data (s2.data ++ '-' :: (Nat.repr j).data)
    (Nat.repr i).data "panel".data (repr_dash_free i) (by decide) h2
  have hp : ('p' : Char) ∈ (Nat.repr i).data := by
    rw [h3.2]; decide
  exact absurd (repr_isDigit i 'p' hp) (by decide)

theorem panelDomId_ne_of_salt_ne {s1 s2 : String} (h : s1 ≠ s2) (i j : Nat) :
    panelDomId s1 i ≠ panelDomId s2 j := by
  intro he
  have hd := congrArg String.data he
  simp only [panelDomId, String.data_append] at hd
  exact tabDomId_ne_of_salt_ne h i j
    (string_eq_of_data (List.append_cancel_right hd))

theorem deriveFrom_tab_id (salt : String) :
    ∀ (cs : List (Option String)) (i : Nat) (t : TabElem),
      t ∈ (deriveFrom salt i cs).1 → ∃ m, t.id = tabDomId salt m := by
  intro cs
  induction cs with
  | nil => intro i t ht; simp [deriveFrom] at ht
  | cons c cs ih =>
    intro i t ht
    simp only [deriveFrom] at ht
    rcases List.mem_cons.1 ht with rfl | ht
    · exact ⟨i, rfl⟩
    · exact ih (i + 1) t ht

theorem deriveFrom_panel_id (salt : String) :
    ∀ (cs : List (Option String)) (i : Nat) (p : PanelElem),
      p ∈ (deriveFrom salt i cs).2 → ∃ m, p.id = panelDomId salt m := by
  intro cs
  induction cs with
  | nil => intro i p hp; simp [deriveFrom] at hp
  | cons c cs ih =>
    intro i p hp
    simp only [deriveFrom] at hp
    rcases List.mem_cons.1 hp with rfl | hp
    · exact ⟨i, rfl⟩
    · exact ih (i + 1) p hp

theorem mem_instanceIds (salt : String) (children : List (Option String))
    (x : String) (hx : x ∈ instanceIds salt children) :
    ∃ m : Nat, x = tabDomId salt m ∨ x = panelDomId salt m := by
  rcases List.mem_append.1 hx with h | h
  · rcases List.mem_map.1 h with ⟨t, ht, rfl⟩
    obtain ⟨m, hm⟩ := deriveFrom_tab_id salt children 1 t ht
    exact ⟨m, Or.inl hm⟩
  · rcases List.mem_map.1 h with ⟨p, hp, rfl⟩
    obtain ⟨m, hm⟩ := deriveFrom_panel_id salt children 1 p hp
    exact ⟨m, Or.inr hm⟩

theorem deriveFrom_get (salt : String) (cs : List (Option String)) :
    ∀ (i j : Nat) (h1 : j < (deriveFrom salt i cs).1.length)
      (h2 : j < (deriveFrom salt i cs).2.length) (hj : j < cs.length),
      (deriveFrom salt i cs).1.get ⟨j, h1⟩ =
        tabTemplate salt (i + j) (cs.get ⟨j, hj⟩) ∧
      (deriveFrom salt i cs).2.get ⟨j, h2⟩ = panelTemplate salt (i + j) := by
  induction cs with
  | nil => intro i j h1 h2 hj; exact absurd hj (by simp)
  | cons c cs ih =>
    intro i j h1 h2 hj
    cases j with
    | zero => constructor <;> simp [deriveFrom]
    | succ k =>
      have hk : k < cs.length := by simpa using hj
      have hk1 : k < (deriveFrom salt (i + 1) cs).1.length := by
        rw [(deriveFrom_length salt (i + 1) cs).1]; exact hk
      have hk2 : k < (deriveFrom salt (i + 1) cs).2.length := by
        rw [(deriveFrom_length salt (i + 1) cs).2]; exact hk
      obtain ⟨ht, hp⟩ := ih (i + 1) k hk1 hk2 hk
      constructor
      · have hcons : (deriveFrom salt i (c :: cs)).1.get ⟨k + 1, h1⟩ =
            (deriveFrom salt (i + 1) cs).1.get ⟨k, hk1⟩ := by
          simp [deriveFrom, List.get_eq_getElem]
        rw [hcons, ht]
        have : i + 1 + k = i + (k + 1) := by omega
        rw [this]
        simp [List.get_eq_getElem]
      · have hcons : (deriveFrom salt i (c :: cs)).2.get ⟨k + 1, h2⟩ =
            (deriveFrom salt (i + 1) cs).2.get ⟨k, hk2⟩ := by
          simp [deriveFrom, List.get_eq_getElem]
        rw [hcons, hp]
        have : i + 1 + k = i + (k + 1) := by omega
        rw [this]

/-- C6: derivation from `n` children yields two parallel sequences of equal
length `n` in child order, in one-to-one correspondence: the `j`-th tab's
`aria-controls` equals the `j`-th panel's id (`web-tab-<salt>-<j+1>-panel`)
and the `j`-th panel's `aria-labelledby` equals the `j`-th tab's id
(`web-tab-<salt>-<j+1>`); and any two instances with distinct salts produce
disjoint id sets. -/
theorem derive_pairing_unique_ids (salt salt2 : String)
    (children children2 : List (Option String)) (hsalt : salt ≠ salt2) :
    (deriveFrom salt 1 children).1.length = children.length ∧
    (deriveFrom salt 1 children).2.length = children.length ∧
    (∀ (j : Nat) (h1 : j < (deriveFrom salt 1 children).1.length)
        (h2 : j < (deriveFrom salt 1 children).2.length),
      ((deriveFrom salt 1 children).1.get ⟨j, h1⟩).ariaControls =
        ((deriveFrom salt 1 children).2.get ⟨j, h2⟩).id ∧
      ((deriveFrom salt 1 children).2.get ⟨j, h2⟩).ariaLabelledby =
        ((deriveFrom salt 1 children).1.get ⟨j, h1⟩).id ∧
      ((deriveFrom salt 1 children).1.get ⟨j, h1⟩).id = tabDomId salt (j + 1) ∧
      ((deriveFrom salt 1 children).2.get ⟨j, h2⟩).id = panelDomId salt (j + 1)) ∧
    (∀ x ∈ instanceIds salt children, x ∉ instanceIds salt2 children2) := by
  refine ⟨(deriveFrom_length salt 1 children).1, (deriveFrom_length salt 1 children).2,
    ?_, ?_⟩
  · intro j h1 h2
    have hj : j < children.length := by
      rw [← (deriveFrom_length salt 1 children).1]; exact h1
    obtain ⟨ht, hp⟩ := deriveFrom_get salt children 1 j h1 h2 hj
    rw [ht, hp]
    have : 1 + j = j + 1 := by omega
    rw [this]
    exact ⟨rfl, rfl, rfl, rfl⟩
  · intro x hx hx2
    obtain ⟨m, hm⟩ := mem_instanceIds salt children x hx
    obtain ⟨m2, hm2⟩ := mem_instanceIds salt2 children2 x hx2
    rcases hm with rfl | rfl <;> rcases hm2 with h | h
    · exact tabDomId_ne_of_salt_ne hsalt m m2 h
    · exact tabDomId_ne_panelDomId salt salt2 m m2 h
    · exact tabDomId_ne_panelDomId salt2 salt m2 m h.symm
    · exact panelDomId_ne_of_salt_ne hsalt m m2 h

/-- Witness for C6: two one-child instances with salts `"1"` and `"2"`. -/
theorem derive_pairing_unique_ids_witness :
    (deriveFrom "1" 1 [some "x"]).1.length = 1 ∧
    (deriveFrom "1" 1 [some "x"]).2.length = 1 ∧
    (∀ (j : Nat) (h1 : j < (deriveFrom "1" 1 [some "x"]).1.length)
        (h2 : j < (deriveFrom "1" 1 [some "x"]).2.length),
      ((deriveFrom "1" 1 [some "x"]).1.get ⟨j, h1⟩).ariaControls =
        ((deriveFrom "1" 1 [some "x"]).2.get ⟨j, h2⟩).id ∧
      ((deriveFrom "1" 1 [some "x"]).2.get ⟨j, h2⟩).ariaLabelledby =
        ((deriveFrom "1" 1 [some "x"]).1.get ⟨j, h1⟩).id ∧
      ((deriveFrom "1" 1 [some "x"]).1.get ⟨j, h1⟩).id = tabDomId "1" (j + 1) ∧
      ((deriveFrom "1" 1 [some "x"]).2.get ⟨j, h2⟩).id = panelDomId "1" (j + 1)) ∧
    (∀ x ∈ instanceIds "1" [some "x"], x ∉ instanceIds "2" [none, some "y"]) :=
  derive_pairing_unique_ids "1" "2" [some "x"] [none, some "y"] (by decide)

end WebTabs
